import Mathlib

/-!
Verification of the legacy CMake driver (`src/legacy-driver.ts`).

This file gives a shallow embedding of the `LegacyCMakeDriver` class: its
mutable fields become a `DriverState` record, the file system the driver
touches becomes an explicit `FS` value threaded through the operations, and
the external process runner's result becomes an explicit `ProcessResult`
input.  Asynchronous methods that can throw return their post-state together
with an error flag (a JavaScript `throw` leaves already-performed field
mutations in place, so the post-state is returned even on the error path).
Each operation also returns a trace of the externally visible events it
performs, in order, so temporal claims can be stated over traces.

External collaborators that are not part of the repository slice
(`util.normalizePath`, the `fs` wrapper from `pr.ts`, `CMakeCache.fromPath`,
`CompilationDatabase`, and the base-class `cachePath` getter) are modelled
from the specification's contracts; each such definition carries a doc
comment saying so.
-/

/-- One entry of a CMake cache: a key and its value.  Modelled from the spec:
the Cache Snapshot is an "immutable mapping from entry key (string) to typed
value"; the value's type tag plays no role in the claims, so values are plain
strings here (`cache.ts` is not part of the source slice). -/
structure CacheEntry where
  key : String
  value : String
deriving DecidableEq, Repr

/-- A loaded CMake cache snapshot (the result of `CMakeCache.fromPath`). -/
structure CMakeCache where
  entries : List CacheEntry
deriving DecidableEq, Repr

/-- `CMakeCache.get`: look up a cache entry by key.  Modelled from the spec:
the snapshot is a key-to-value mapping (`cache.ts` is not in the slice). -/
def CMakeCache.get (c : CMakeCache) (k : String) : Option String :=
  (c.entries.find? (fun e => e.key = k)).map (fun e => e.value)

/-- One record of a compilation database: the compile invocation metadata for
a source file.  Modelled from the spec: "working directory, command/arguments"
(`compdb.ts` is not in the slice). -/
structure CompileCommand where
  directory : String
  command : String
deriving DecidableEq, Repr

/-- A loaded compilation database: a mapping from normalized source-file path
to its compile command.  Modelled from the spec (`compdb.ts` is not in the
slice). -/
structure CompilationDatabase where
  infos : List (String × CompileCommand)
deriving DecidableEq, Repr

/-- `util.normalizePath`.  Modelled from the spec: paths are normalized to a
"platform-neutral, typically forward-slash" form (`util.ts` is not in the
slice); backslashes become forward slashes. -/
def normalizePath (p : String) : String :=
  String.mk (p.data.map (fun c => if c = '\\' then '/' else c))

/-- `CompilationDatabase.getCompilationInfoForUri`: look up the record for a
file path, normalized to the database's key form.  Modelled from the spec:
"normalize `path` to the Database's key form and return the matching record
or null/None if absent" (`compdb.ts` is not in the slice). -/
def CompilationDatabase.getCompilationInfoForUri (db : CompilationDatabase) (p : String) :
    Option CompileCommand :=
  (db.infos.find? (fun e => e.1 = normalizePath p)).map (fun e => e.2)

/-- Semantic content of an on-disk file as far as the driver's parsers are
concerned: a parsable cache file, a parsable compile-commands file, or
unparsable bytes. -/
inductive FileContent where
  | cache (entries : List CacheEntry)
  | compdb (infos : List (String × CompileCommand))
  | invalid
deriving DecidableEq, Repr

/-- A file-system error raised by a delete operation. -/
inductive FsError where
  | unlinkFailed
  | rmdirFailed
deriving DecidableEq, Repr

/-- `p` lies at or below directory `dir`. -/
def isUnder (dir p : String) : Bool :=
  p = dir || String.isPrefixOf (dir ++ "/") p

/-- The file system visible to the driver: files with their semantic content,
existing directory paths, and the set of paths whose deletion fails (this
models the file-system failures whose propagation the spec requires). -/
structure FS where
  files : List (String × FileContent)
  dirs : List String
  undeletable : List String
deriving DecidableEq, Repr

/-- Read a file's content, if a file exists at `p`. -/
def FS.read (fs : FS) (p : String) : Option FileContent :=
  (fs.files.find? (fun f => f.1 = p)).map (fun f => f.2)

/-- `fs.exists(p)` of the `pr.ts` wrapper: a file or directory exists at `p`.
Modelled from the spec (`pr.ts` is not in the slice). -/
def FS.existsPath (fs : FS) (p : String) : Bool :=
  fs.files.any (fun f => f.1 = p) || fs.dirs.any (fun q => q = p)

/-- `fs.unlink(p)` of the `pr.ts` wrapper: delete the file at `p`,
propagating a failure.  Modelled from the spec: deletion errors propagate
(`pr.ts` is not in the slice). -/
def FS.unlink (fs : FS) (p : String) : Except FsError FS :=
  if fs.undeletable.contains p then
    Except.error FsError.unlinkFailed
  else
    Except.ok { fs with files := fs.files.filter (fun f => ¬ f.1 = p) }

/-- `fs.rmdir(d)` of the `pr.ts` wrapper: delete the whole directory tree at
`d`, propagating a failure.  Modelled from the spec: `setKit` "deletes the
entire binary directory tree (fails the operation if deletion fails)"
(`pr.ts` is not in the slice). -/
def FS.rmdir (fs : FS) (d : String) : Except FsError FS :=
  if fs.undeletable.any (fun p => isUnder d p) then
    Except.error FsError.rmdirFailed
  else
    Except.ok { fs with
      files := fs.files.filter (fun f => ¬ isUnder d f.1),
      dirs := fs.dirs.filter (fun p => ¬ isUnder d p) }

/-- An error the driver's own code can propagate to its caller. -/
inductive DriverError where
  | cacheLoadError
deriving DecidableEq, Repr

/-- `CMakeCache.fromPath`: load a cache snapshot from a path.  Modelled from
the spec's Cache Store contract: "fails (propagates) if the file cannot be
parsed; a missing file is a load failure, not an empty snapshot"
(`cache.ts` is not in the slice). -/
def CMakeCache.fromPath (fs : FS) (p : String) : Except DriverError CMakeCache :=
  match fs.read p with
  | some (FileContent.cache es) => Except.ok { entries := es }
  | some _ => Except.error DriverError.cacheLoadError
  | none => Except.error DriverError.cacheLoadError

/-- `CompilationDatabase.fromFilePath`: load a compilation database from a
path.  Modelled from the spec's Compilation Database contract: "missing file
yields null, not a failure" (`compdb.ts` is not in the slice). -/
def CompilationDatabase.fromFilePath (fs : FS) (p : String) : Option CompilationDatabase :=
  match fs.read p with
  | some (FileContent.compdb is) => some { infos := is }
  | _ => none

/-- The mutable state of a `LegacyCMakeDriver` instance: the immutable
directories from the base class and the fields the legacy driver mutates
(`_needsReconfigure`, `_cmakeCache`, `_compilationDatabase`, and the project
name set through `doSetProjectName`).  The `_compilationDatabase` promise is
represented by its eventual value. -/
structure DriverState where
  sourceDir : String
  binaryDir : String
  needsReconfigure : Bool
  cmakeCache : Option CMakeCache
  compilationDatabase : Option CompilationDatabase
  projectName : Option String
deriving DecidableEq, Repr

/-- The base-class `cachePath` getter.  Modelled from the spec: the cache
file is "located directly inside the binary directory" (`driver.ts` is not in
the slice); CMake's cache file name is `CMakeCache.txt`. -/
def DriverState.cachePath (d : DriverState) : String :=
  d.binaryDir ++ "/CMakeCache.txt"

/-- `path.join(this.binaryDir, 'compile_commands.json')` from
`_reloadPostConfigure`. -/
def DriverState.compdbPath (d : DriverState) : String :=
  d.binaryDir ++ "/compile_commands.json"

/-- `path.join(build_dir, 'CMakeFiles')` from `cleanConfigure`. -/
def DriverState.cmakeFilesPath (d : DriverState) : String :=
  d.binaryDir ++ "/CMakeFiles"

/-- The result the process runner hands back: the exit code (none models the
JavaScript `null` of an abnormal termination) and the captured output. -/
structure ProcessResult where
  retc : Option Int
  stdout : String
  stderr : String
deriving DecidableEq, Repr

/-- An externally visible event of a driver operation, in the order it
happens: running the external tool, invoking `_reloadPostConfigure`, or
invoking the caller-supplied kit callback. -/
inductive Event where
  | exec (tool : String) (args : List String)
  | reload
  | kitCallback
deriving DecidableEq, Repr

/-- The assignments of `_reloadPostConfigure` once the cache load has
succeeded (lines 123-128): store the new snapshot, propagate a
`CMAKE_PROJECT_NAME` entry through `doSetProjectName`, then replace the
compilation-database field with the load from
`binaryDir/compile_commands.json`. -/
def applyReload (fs : FS) (d : DriverState) (new_cache : CMakeCache) : DriverState :=
  let d1 := { d with cmakeCache := some new_cache }
  let d2 :=
    match new_cache.get "CMAKE_PROJECT_NAME" with
    | some project => { d1 with projectName := some project }
    | none => d1
  { d2 with compilationDatabase := CompilationDatabase.fromFilePath fs d.compdbPath }

/-- `_reloadPostConfigure` (lines 120-129): load a new cache snapshot from
`cachePath` (a failure propagates before any field is assigned), then perform
the three assignments of `applyReload`. -/
def reloadPostConfigure (fs : FS) (d : DriverState) : Except DriverError DriverState :=
  match CMakeCache.fromPath fs d.cachePath with
  | Except.error e => Except.error e
  | Except.ok new_cache => Except.ok (applyReload fs d new_cache)

/-- The argument list `doConfigure` builds (lines 58-62): a copy of the
caller's arguments, then `-H` + normalized source dir, then `-B` + normalized
binary dir. -/
def configArgs (d : DriverState) (args_ : List String) : List String :=
  let args := args_
  let args := args ++ ["-H" ++ normalizePath d.sourceDir]
  let bindir := normalizePath d.binaryDir
  let args := args ++ ["-B" ++ bindir]
  args

/-- Outcome of `doConfigure`: the driver state after the call (even when the
reload threw), the numeric result returned to the caller (`none` when the
reload threw instead of returning), whether the reload's error propagated,
and the event trace. -/
structure ConfigureOutcome where
  state : DriverState
  result : Option Int
  reloadError : Bool
  trace : List Event
deriving DecidableEq, Repr

/-- `doConfigure` (lines 57-72): build the argument list, run the tool, clear
`_needsReconfigure` exactly when the exit code equals 0, always invoke
`_reloadPostConfigure`, and return the exit code with `null` mapped to -1.
The process runner's result is the explicit input `res`; `cmakePath` stands
for `config.cmakePath`. -/
def doConfigure (fs : FS) (res : ProcessResult) (cmakePath : String)
    (d : DriverState) (args_ : List String) : ConfigureOutcome :=
  let args := configArgs d args_
  let d1 := if res.retc = some 0 then { d with needsReconfigure := false } else d
  match reloadPostConfigure fs d1 with
  | Except.error _ =>
    { state := d1, result := none, reloadError := true,
      trace := [Event.exec cmakePath args, Event.reload] }
  | Except.ok d2 =>
    { state := d2,
      result := some (match res.retc with | none => -1 | some c => c),
      reloadError := false,
      trace := [Event.exec cmakePath args, Event.reload] }

/-- Outcome of `doSetKit`: post-state (the `_needsReconfigure = true`
assignment survives a later throw), post file system, whether a deletion
failure propagated, and the event trace. -/
structure SetKitOutcome where
  state : DriverState
  fs : FS
  error : Bool
  trace : List Event
deriving DecidableEq, Repr

/-- `doSetKit` (lines 34-41): set `_needsReconfigure`, wipe the binary
directory when a clean is required (a deletion failure propagates and the
callback is not reached), then invoke the caller's callback. -/
def doSetKit (fs : FS) (d : DriverState) (need_clean : Bool) : SetKitOutcome :=
  let d1 := { d with needsReconfigure := true }
  if need_clean then
    match fs.rmdir d1.binaryDir with
    | Except.error _ => { state := d1, fs := fs, error := true, trace := [] }
    | Except.ok fs2 => { state := d1, fs := fs2, error := false, trace := [Event.kitCallback] }
  else
    { state := d1, fs := fs, error := false, trace := [Event.kitCallback] }

/-- Lines 78-81 of `cleanConfigure`: unlink the cache file when it exists. -/
def deleteCacheStep (fs : FS) (d : DriverState) : Except FsError FS :=
  if fs.existsPath d.cachePath then fs.unlink d.cachePath else Except.ok fs

/-- Lines 82-85 of `cleanConfigure`: remove the `CMakeFiles` directory when
it exists. -/
def deleteCMakeFilesStep (fs : FS) (d : DriverState) : Except FsError FS :=
  if fs.existsPath d.cmakeFilesPath then fs.rmdir d.cmakeFilesPath else Except.ok fs

/-- The deletion phase of `cleanConfigure` (lines 75-85): unlink the cache
file when it exists, then remove the `CMakeFiles` directory when it exists;
the resulting file system is the one the subsequent configure starts from,
and a deletion failure propagates instead. -/
def cleanConfigureDeletions (fs : FS) (d : DriverState) : Except FsError FS :=
  match deleteCacheStep fs d with
  | Except.error e => Except.error e
  | Except.ok fs1 =>
    match deleteCMakeFilesStep fs1 d with
    | Except.error e => Except.error e
    | Except.ok fs2 => Except.ok fs2

/-- `cleanConfigure` (lines 74-87): run the deletion phase, then
`this.configure([], consumer)`.  The base-class `configure` is not in the
slice; modelled from the spec, it "performs a full `configure` with no extra
arguments", i.e. it reaches `doConfigure` with the empty argument list. -/
def cleanConfigure (fs : FS) (res : ProcessResult) (cmakePath : String)
    (d : DriverState) : Except FsError (FS × ConfigureOutcome) :=
  match cleanConfigureDeletions fs d with
  | Except.error e => Except.error e
  | Except.ok fs2 => Except.ok (fs2, doConfigure fs2 res cmakePath d [])

/-- `compilationInfoForFile` (lines 44-50): await the compilation-database
promise; return null when no database is loaded, otherwise the database
lookup's result. -/
def compilationInfoForFile (d : DriverState) (filepath : String) : Option CompileCommand :=
  match d.compilationDatabase with
  | none => none
  | some db => db.getCompilationInfoForUri filepath

/-!
A small mutable-array heap, for the frame effect of `doConfigure`'s argument
building: JavaScript arrays are references, `Array.from` allocates a fresh
one, and `push` mutates in place.  References are indices into the heap. -/

/-- The array heap: reference `r` denotes `arrays[r]`. -/
structure Heap where
  arrays : List (List String)
deriving DecidableEq, Repr

/-- Dereference `r`, if it is a live reference. -/
def Heap.get (h : Heap) (r : Nat) : Option (List String) :=
  h.arrays.get? r

/-- Allocate a fresh array holding `v`; returns the new heap and the new
reference. -/
def Heap.alloc (h : Heap) (v : List String) : Heap × Nat :=
  ({ arrays := h.arrays ++ [v] }, h.arrays.length)

/-- `arr.push(s)`: in-place append to the array `r` refers to. -/
def Heap.push (h : Heap) (r : Nat) (s : String) : Heap :=
  { arrays := h.arrays.set r (((h.get r).getD []) ++ [s]) }

/-- `Array.from(a)`: allocate a fresh array with a copy of `a`'s elements. -/
def arrayFrom (h : Heap) (r : Nat) : Heap × Nat :=
  h.alloc ((h.get r).getD [])

/-- The argument-building prefix of `doConfigure` (lines 58-62) at the level
of array references: `const args = Array.from(args_)`, then two pushes onto
`args`.  Returns the heap after the pushes and the reference `args`. -/
def doConfigureArgsBuild (h : Heap) (args_ref : Nat) (d : DriverState) : Heap × Nat :=
  let p := arrayFrom h args_ref
  let h1 := Heap.push p.1 p.2 ("-H" ++ normalizePath d.sourceDir)
  let bindir := normalizePath d.binaryDir
  let h2 := Heap.push h1 p.2 ("-B" ++ bindir)
  (h2, p.2)

/-!
Concrete sample values, used by the witness theorems to evaluate the
operations on closed inputs. -/

/-- A file system holding a parsable cache file naming project `Foo`, the
binary directory, and a `CMakeFiles` directory, with no deletion failures. -/
def sampleFS : FS :=
  { files := [("bld/CMakeCache.txt", FileContent.cache [{ key := "CMAKE_PROJECT_NAME", value := "Foo" }])],
    dirs := ["bld", "bld/CMakeFiles"],
    undeletable := [] }

/-- A file system with no cache file at all. -/
def emptyFS : FS := { files := [], dirs := [], undeletable := [] }

/-- A freshly constructed driver over `srcd`/`bld`. -/
def sampleDriver : DriverState :=
  { sourceDir := "srcd", binaryDir := "bld", needsReconfigure := true,
    cmakeCache := none, compilationDatabase := none, projectName := none }

/-- A process result with exit code 1. -/
def exitOne : ProcessResult := { retc := some 1, stdout := "", stderr := "" }

/-- A process result with exit code 0. -/
def exitZero : ProcessResult := { retc := some 0, stdout := "", stderr := "" }

/-!
Shared lemmas. -/

/-- Elements surviving a filter that forces the test false make `any` false. -/
theorem any_filter_false {α : Type} (l : List α) (f g : α → Bool)
    (h : ∀ a, f a = true → g a = false) : (l.filter f).any g = false := by
  rw [List.any_eq_false]
  intro a ha
  have hf := (List.mem_filter.mp ha).2
  simp [h a hf]

/-- `any` stays false after any filter. -/
theorem any_filter_mono {α : Type} (l : List α) (f g : α → Bool)
    (h : l.any g = false) : (l.filter f).any g = false := by
  rw [List.any_eq_false] at h ⊢
  intro a ha
  exact h a (List.mem_filter.mp ha).1

/-- A directory removed by `rmdir` no longer exists. -/
theorem rmdir_ok_not_exists (fs : FS) (dir : String) (fs' : FS)
    (h : fs.rmdir dir = Except.ok fs') : fs'.existsPath dir = false := by
  unfold FS.rmdir at h
  split at h
  · cases h
  · injection h with h
    subst h
    unfold FS.existsPath
    rw [Bool.or_eq_false_iff]
    constructor
    · apply any_filter_false
      intro a ha
      simp only [decide_eq_true_eq] at ha
      simp only [decide_eq_false_iff_not]
      intro hEq
      exact ha (by simp [isUnder, hEq])
    · apply any_filter_false
      intro a ha
      simp only [decide_eq_true_eq] at ha
      simp only [decide_eq_false_iff_not]
      intro hEq
      exact ha (by simp [isUnder, hEq])

/-- A path that did not exist still does not exist after `rmdir` succeeds. -/
theorem rmdir_ok_preserves_absent (fs : FS) (dir p : String) (fs' : FS)
    (h : fs.rmdir dir = Except.ok fs') (hp : fs.existsPath p = false) :
    fs'.existsPath p = false := by
  unfold FS.rmdir at h
  split at h
  · cases h
  · injection h with h
    subst h
    unfold FS.existsPath at hp ⊢
    rw [Bool.or_eq_false_iff] at hp ⊢
    exact ⟨any_filter_mono _ _ _ hp.1, any_filter_mono _ _ _ hp.2⟩

/-- The file removed by a successful `unlink` no longer exists, provided no
directory bears its path. -/
theorem unlink_ok_not_exists (fs : FS) (p : String) (fs' : FS)
    (h : fs.unlink p = Except.ok fs')
    (hdir : fs.dirs.any (fun q => q = p) = false) : fs'.existsPath p = false := by
  unfold FS.unlink at h
  split at h
  · cases h
  · injection h with h
    subst h
    unfold FS.existsPath
    rw [Bool.or_eq_false_iff]
    constructor
    · apply any_filter_false
      intro a ha
      simp only [decide_eq_true_eq] at ha
      simp only [decide_eq_false_iff_not]
      exact ha
    · exact hdir

/-- The fields `applyReload` writes, in terms of its inputs. -/
theorem applyReload_cmakeCache (fs : FS) (d : DriverState) (c : CMakeCache) :
    (applyReload fs d c).cmakeCache = some c := by
  unfold applyReload
  cases c.get "CMAKE_PROJECT_NAME" <;> simp

/-- `applyReload` stores exactly the database loaded from `compdbPath`. -/
theorem applyReload_compdb (fs : FS) (d : DriverState) (c : CMakeCache) :
    (applyReload fs d c).compilationDatabase
      = CompilationDatabase.fromFilePath fs d.compdbPath := by
  unfold applyReload
  cases c.get "CMAKE_PROJECT_NAME" <;> simp

/-- `applyReload` never touches the directories or the reconfigure flag. -/
theorem applyReload_frame (fs : FS) (d : DriverState) (c : CMakeCache) :
    (applyReload fs d c).sourceDir = d.sourceDir
    ∧ (applyReload fs d c).binaryDir = d.binaryDir
    ∧ (applyReload fs d c).needsReconfigure = d.needsReconfigure := by
  unfold applyReload
  cases c.get "CMAKE_PROJECT_NAME" <;> simp

/-- A successful reload is exactly a successful cache load followed by
`applyReload`. -/
theorem reload_ok_iff (fs : FS) (d : DriverState) (d' : DriverState) :
    reloadPostConfigure fs d = Except.ok d'
      ↔ ∃ c, CMakeCache.fromPath fs d.cachePath = Except.ok c ∧ d' = applyReload fs d c := by
  unfold reloadPostConfigure
  cases hc : CMakeCache.fromPath fs d.cachePath with
  | error e => simp
  | ok c =>
    simp only [Except.ok.injEq]
    constructor
    · intro h
      exact ⟨c, rfl, h.symm⟩
    · rintro ⟨c2, hc2, hd⟩
      subst hc2
      exact hd.symm

/-- Setting the slot just past `l` in `l ++ [v]` replaces `v`. -/
theorem set_concat_length {α : Type} (l : List α) (v x : α) :
    (l ++ [v]).set l.length x = l ++ [x] := by
  induction l with
  | nil => rfl
  | cons a t ih => simp [List.set, ih]

/-- `getD` through `get?`. -/
theorem getD_eq_get? {α : Type} (l : List α) (n : Nat) (d : α) :
    l.getD n d = (l.get? n).getD d := by
  simp [List.getD, List.get?_eq_getElem?]

/-- The heap after `doConfigureArgsBuild`: one fresh array appended, holding
the caller's elements followed by the two selectors. -/
theorem doConfigureArgsBuild_heap (h : Heap) (r : Nat) (d : DriverState) :
    (doConfigureArgsBuild h r d).1.arrays
      = h.arrays ++ [((Heap.get h r).getD []) ++
          ["-H" ++ normalizePath d.sourceDir, "-B" ++ normalizePath d.binaryDir]]
    ∧ (doConfigureArgsBuild h r d).2 = h.arrays.length := by
  unfold doConfigureArgsBuild arrayFrom Heap.alloc Heap.push Heap.get
  constructor
  · simp only [List.get?_eq_getElem?, List.getElem?_concat_length, Option.getD_some,
      set_concat_length, List.append_assoc]
    simp
  · rfl

/-!
Claim theorems. -/

/-- C2: within every `configure()` call the external process execution
strictly precedes the triggered reload, and the reload is invoked
unconditionally after the process completes — the trace of `doConfigure` is
always exactly the execution event followed by the reload event, for every
exit code and even when the reload itself fails. -/
theorem doConfigure_exec_precedes_unconditional_reload (fs : FS) (res : ProcessResult)
    (cmakePath : String) (d : DriverState) (args_ : List String) :
    (doConfigure fs res cmakePath d args_).trace
      = [Event.exec cmakePath (configArgs d args_), Event.reload] := by
  simp only [doConfigure]
  split <;> rfl

/-- C7: the argument list handed to the process runner is the caller-supplied
arguments followed by exactly the `-H` source-directory selector and then the
`-B` binary-directory selector, both carrying normalized paths, and the
execution event of `doConfigure` carries exactly that list. -/
theorem configure_appends_directory_selectors (fs : FS) (res : ProcessResult)
    (cmakePath : String) (d : DriverState) (args_ : List String) :
    configArgs d args_
      = args_ ++ ["-H" ++ normalizePath d.sourceDir, "-B" ++ normalizePath d.binaryDir]
    ∧ (doConfigure fs res cmakePath d args_).trace.head?
      = some (Event.exec cmakePath (configArgs d args_)) := by
  constructor
  · simp [configArgs]
  · simp only [doConfigure]
    split <;> rfl

/-- C6: `compilationInfoForFile` returns `none` when no compilation database
is loaded, and returns `none` rather than failing when the loaded database
has no entry for the queried path. -/
theorem compilationInfoForFile_missing_is_none (d : DriverState) (p : String) :
    (d.compilationDatabase = none → compilationInfoForFile d p = none)
    ∧ (∀ db, d.compilationDatabase = some db →
        (∀ e ∈ db.infos, ¬ e.1 = normalizePath p) → compilationInfoForFile d p = none) := by
  constructor
  · intro h
    unfold compilationInfoForFile
    rw [h]
  · intro db hdb habs
    have hnone : db.infos.find? (fun e => e.1 = normalizePath p) = none := by
      rw [List.find?_eq_none]
      intro x hx
      simpa using habs x hx
    simp [compilationInfoForFile, hdb, CompilationDatabase.getCompilationInfoForUri, hnone]

/-- A loaded database that has an entry only for `other.c`. -/
def dbNoEntry : CompilationDatabase :=
  { infos := [("other.c", { directory := "bld", command := "cc" })] }

/-- `sampleDriver` after a reload that loaded `dbNoEntry`. -/
def driverWithDb : DriverState :=
  { sampleDriver with compilationDatabase := some dbNoEntry }

/-- Witness for C6 at concrete inputs: no database loaded, and a database
without an entry for `a.c`. -/
theorem compilationInfoForFile_missing_is_none_witness :
    compilationInfoForFile sampleDriver "a.c" = none
    ∧ compilationInfoForFile driverWithDb "a.c" = none :=
  ⟨(compilationInfoForFile_missing_is_none sampleDriver "a.c").1 rfl,
   (compilationInfoForFile_missing_is_none driverWithDb "a.c").2 dbNoEntry rfl (by decide)⟩

/-- C10: the caller-supplied argument array is never mutated by
`doConfigure`'s argument building — the two selectors are pushed onto a fresh
copy (`Array.from`), the fresh reference is distinct from the caller's, and
the caller's array reads back unchanged. -/
theorem doConfigure_args_frame (h : Heap) (r : Nat) (d : DriverState)
    (hr : r < h.arrays.length) :
    Heap.get (doConfigureArgsBuild h r d).1 r = Heap.get h r
    ∧ (doConfigureArgsBuild h r d).2 ≠ r
    ∧ Heap.get (doConfigureArgsBuild h r d).1 (doConfigureArgsBuild h r d).2
      = some (((Heap.get h r).getD [])
          ++ ["-H" ++ normalizePath d.sourceDir, "-B" ++ normalizePath d.binaryDir]) := by
  obtain ⟨h1, h2⟩ := doConfigureArgsBuild_heap h r d
  refine ⟨?_, ?_, ?_⟩
  · rw [Heap.get, h1, List.get?_eq_getElem?, List.getElem?_append_left hr]
    rw [Heap.get, List.get?_eq_getElem?]
  · rw [h2]
    exact ne_of_gt hr
  · rw [Heap.get, h1, h2, List.get?_eq_getElem?, List.getElem?_concat_length]

/-- Witness for C10 at a concrete one-array heap. -/
theorem doConfigure_args_frame_witness :
    Heap.get (doConfigureArgsBuild { arrays := [["a"]] } 0 sampleDriver).1 0
      = Heap.get { arrays := [["a"]] } 0
    ∧ (doConfigureArgsBuild { arrays := [["a"]] } 0 sampleDriver).2 ≠ 0
    ∧ Heap.get (doConfigureArgsBuild { arrays := [["a"]] } 0 sampleDriver).1
        (doConfigureArgsBuild { arrays := [["a"]] } 0 sampleDriver).2
      = some (((Heap.get { arrays := [["a"]] } 0).getD [])
          ++ ["-H" ++ normalizePath sampleDriver.sourceDir,
              "-B" ++ normalizePath sampleDriver.binaryDir]) :=
  doConfigure_args_frame { arrays := [["a"]] } 0 sampleDriver (by decide)

/-- A driver whose previous configure succeeded: `needsReconfigure` is
`false` and a parsable cache is on disk. -/
def configuredDriver : DriverState :=
  { sourceDir := "srcd", binaryDir := "bld", needsReconfigure := false,
    cmakeCache := none, compilationDatabase := none, projectName := none }

/-- C1, counterexample: a `configure()` with exit code 1 issued while
`needsReconfigure` is `false` (after an earlier successful configure) leaves
`needsReconfigure` equal to `false`, not `true` as the claim states — the
code never re-arms the flag on failure, it only clears it on exit code 0. -/
theorem doConfigure_nonzero_exit_keeps_prior_flag :
    (doConfigure sampleFS exitOne "cmake" configuredDriver []).state.needsReconfigure
      = false := by
  decide

/-- C1, amended: after every `doConfigure`, `needsReconfigure` is `false`
when the exit code is 0 and is otherwise left at its prior value (in
particular it remains `true` whenever it was `true` before the call); and
whenever the call returns a numeric result, that result is the process exit
code, with a `null` code translated to -1. -/
theorem doConfigure_exit_code_contract (fs : FS) (res : ProcessResult)
    (cmakePath : String) (d : DriverState) (args_ : List String) :
    ((doConfigure fs res cmakePath d args_).state.needsReconfigure
      = if res.retc = some 0 then false else d.needsReconfigure)
    ∧ (∀ r, (doConfigure fs res cmakePath d args_).result = some r →
        r = (match res.retc with | none => -1 | some c => c)) := by
  cases hrel : reloadPostConfigure fs
      (if res.retc = some 0 then { d with needsReconfigure := false } else d) with
  | error e =>
    constructor
    · simp only [doConfigure, hrel]
      by_cases h0 : res.retc = some 0 <;> simp [h0]
    · simp only [doConfigure, hrel]
      intro r hr
      simp at hr
  | ok d2 =>
    obtain ⟨c, hc, hd2⟩ := (reload_ok_iff fs _ d2).mp hrel
    constructor
    · simp only [doConfigure, hrel]
      rw [hd2]
      rcases applyReload_frame fs _ c with ⟨-, -, hnr⟩
      rw [hnr]
      by_cases h0 : res.retc = some 0 <;> simp [h0]
    · simp only [doConfigure, hrel]
      intro r hr
      simp at hr
      exact hr.symm

/-- Witness for C1's amended theorem: exit code 1 on a configured driver
leaves the flag at its prior value, and the returned code is 1. -/
theorem doConfigure_exit_code_contract_witness :
    ((doConfigure sampleFS exitOne "cmake" sampleDriver []).state.needsReconfigure
      = if exitOne.retc = some 0 then false else sampleDriver.needsReconfigure)
    ∧ (1 : Int) = (match exitOne.retc with | none => -1 | some c => c) :=
  ⟨(doConfigure_exit_code_contract sampleFS exitOne "cmake" sampleDriver []).1,
   (doConfigure_exit_code_contract sampleFS exitOne "cmake" sampleDriver []).2 1 (by decide)⟩

/-- C9: on exit code 0 the flag is cleared before the reload begins — the
reload runs on the state with `needsReconfigure = false` — and when that
reload fails, the error propagates: no numeric result is returned and the
flag stays `false`. -/
theorem configure_success_then_reload_failure (fs : FS) (res : ProcessResult)
    (cmakePath : String) (d : DriverState) (args_ : List String) (e : DriverError)
    (h0 : res.retc = some 0)
    (herr : reloadPostConfigure fs { d with needsReconfigure := false } = Except.error e) :
    doConfigure fs res cmakePath d args_
      = { state := { d with needsReconfigure := false }, result := none, reloadError := true,
          trace := [Event.exec cmakePath (configArgs d args_), Event.reload] } := by
  have hif : (if res.retc = some 0 then { d with needsReconfigure := false } else d)
      = { d with needsReconfigure := false } := by
    rw [h0]
    simp
  simp only [doConfigure, hif, herr]

/-- Witness for C9: exit code 0 with no cache file on disk — the reload
fails, nothing is returned, and the flag stays `false`. -/
theorem configure_success_then_reload_failure_witness :
    doConfigure emptyFS exitZero "cmake" sampleDriver []
      = { state := { sampleDriver with needsReconfigure := false }, result := none,
          reloadError := true,
          trace := [Event.exec "cmake" (configArgs sampleDriver []), Event.reload] } :=
  configure_success_then_reload_failure emptyFS exitZero "cmake" sampleDriver []
    DriverError.cacheLoadError rfl (by rfl)

/-- C3: whenever a reload completes, the cache snapshot and the compilation
database have both been replaced wholesale, from the same binary directory —
the new `cmakeCache` is exactly the cache loaded from
`binaryDir/CMakeCache.txt` and the new `compilationDatabase` is exactly the
database loaded from `binaryDir/compile_commands.json`, whatever either field
held before. -/
theorem reload_refreshes_cache_and_compdb_together (fs : FS) (d d' : DriverState)
    (h : reloadPostConfigure fs d = Except.ok d') :
    ∃ c, CMakeCache.fromPath fs (d.binaryDir ++ "/CMakeCache.txt") = Except.ok c
      ∧ d'.cmakeCache = some c
      ∧ d'.compilationDatabase
          = CompilationDatabase.fromFilePath fs (d.binaryDir ++ "/compile_commands.json") := by
  obtain ⟨c, hc, hd⟩ := (reload_ok_iff fs d d').mp h
  refine ⟨c, hc, ?_, ?_⟩
  · rw [hd]
    exact applyReload_cmakeCache fs d c
  · rw [hd]
    exact applyReload_compdb fs d c

/-- The driver state a reload over `sampleFS` produces from `sampleDriver`. -/
def reloadedDriver : DriverState :=
  { sourceDir := "srcd", binaryDir := "bld", needsReconfigure := true,
    cmakeCache := some { entries := [{ key := "CMAKE_PROJECT_NAME", value := "Foo" }] },
    compilationDatabase := none, projectName := some "Foo" }

/-- Witness for C3 at the concrete sample file system. -/
theorem reload_refreshes_cache_and_compdb_together_witness :
    ∃ c, CMakeCache.fromPath sampleFS (sampleDriver.binaryDir ++ "/CMakeCache.txt")
        = Except.ok c
      ∧ reloadedDriver.cmakeCache = some c
      ∧ reloadedDriver.compilationDatabase
          = CompilationDatabase.fromFilePath sampleFS
              (sampleDriver.binaryDir ++ "/compile_commands.json") :=
  reload_refreshes_cache_and_compdb_together sampleFS sampleDriver reloadedDriver (by rfl)

/-- C8: a second reload right after a first one, over an unchanged file
system, succeeds and yields the same cache contents and the same compilation
database contents as the first. -/
theorem reload_idempotent (fs : FS) (d d1 : DriverState)
    (h : reloadPostConfigure fs d = Except.ok d1) :
    ∃ d2, reloadPostConfigure fs d1 = Except.ok d2
      ∧ d2.cmakeCache = d1.cmakeCache
      ∧ d2.compilationDatabase = d1.compilationDatabase := by
  obtain ⟨c, hc, hd1⟩ := (reload_ok_iff fs d d1).mp h
  have hbin : d1.binaryDir = d.binaryDir := by
    rw [hd1]
    exact (applyReload_frame fs d c).2.1
  have hcp : d1.cachePath = d.cachePath := by
    unfold DriverState.cachePath
    rw [hbin]
  have hdbp : d1.compdbPath = d.compdbPath := by
    unfold DriverState.compdbPath
    rw [hbin]
  refine ⟨applyReload fs d1 c, ?_, ?_, ?_⟩
  · rw [reload_ok_iff]
    refine ⟨c, ?_, rfl⟩
    rw [hcp]
    exact hc
  · rw [applyReload_cmakeCache, hd1, applyReload_cmakeCache]
  · rw [applyReload_compdb, hdbp, hd1, applyReload_compdb]

/-- Witness for C8 at the concrete sample file system. -/
theorem reload_idempotent_witness :
    ∃ d2, reloadPostConfigure sampleFS reloadedDriver = Except.ok d2
      ∧ d2.cmakeCache = reloadedDriver.cmakeCache
      ∧ d2.compilationDatabase = reloadedDriver.compilationDatabase :=
  reload_idempotent sampleFS sampleDriver reloadedDriver (by rfl)

/-- After a successful cache-deletion step the cache file no longer exists
(assuming no directory bears the cache file's path). -/
theorem deleteCacheStep_ok (fs fs1 : FS) (d : DriverState)
    (hnd : fs.dirs.any (fun q => q = d.cachePath) = false)
    (h : deleteCacheStep fs d = Except.ok fs1) :
    fs1.existsPath d.cachePath = false := by
  unfold deleteCacheStep at h
  by_cases hex : fs.existsPath d.cachePath = true
  · rw [if_pos hex] at h
    exact unlink_ok_not_exists fs d.cachePath fs1 h hnd
  · rw [if_neg hex] at h
    injection h with h
    subst h
    simpa using hex

/-- After a successful `CMakeFiles`-deletion step the directory no longer
exists. -/
theorem deleteCMakeFilesStep_ok (fs1 fs2 : FS) (d : DriverState)
    (h : deleteCMakeFilesStep fs1 d = Except.ok fs2) :
    fs2.existsPath d.cmakeFilesPath = false := by
  unfold deleteCMakeFilesStep at h
  by_cases hex : fs1.existsPath d.cmakeFilesPath = true
  · rw [if_pos hex] at h
    exact rmdir_ok_not_exists fs1 d.cmakeFilesPath fs2 h
  · rw [if_neg hex] at h
    injection h with h
    subst h
    simpa using hex

/-- The `CMakeFiles`-deletion step never resurrects an absent path. -/
theorem deleteCMakeFilesStep_preserves (fs1 fs2 : FS) (d : DriverState) (p : String)
    (h : deleteCMakeFilesStep fs1 d = Except.ok fs2)
    (hp : fs1.existsPath p = false) : fs2.existsPath p = false := by
  unfold deleteCMakeFilesStep at h
  by_cases hex : fs1.existsPath d.cmakeFilesPath = true
  · rw [if_pos hex] at h
    exact rmdir_ok_preserves_absent fs1 d.cmakeFilesPath p fs2 h hp
  · rw [if_neg hex] at h
    injection h with h
    subst h
    exact hp

/-- The deletion phase succeeds exactly when both steps succeed in
sequence. -/
theorem cleanConfigureDeletions_ok_iff (fs : FS) (d : DriverState) (fs2 : FS) :
    cleanConfigureDeletions fs d = Except.ok fs2
      ↔ ∃ fs1, deleteCacheStep fs d = Except.ok fs1
          ∧ deleteCMakeFilesStep fs1 d = Except.ok fs2 := by
  unfold cleanConfigureDeletions
  cases h1 : deleteCacheStep fs d with
  | error e =>
    simp [h1]
  | ok fs1 =>
    cases h2 : deleteCMakeFilesStep fs1 d with
    | error e =>
      simp [h1, h2]
    | ok fs3 =>
      simp [h1, h2]

/-- C4: every `doSetKit` sets `needsReconfigure` to `true` regardless of the
prior state and never runs the build tool; when a clean is required and the
wipe succeeds, the binary directory no longer exists at the moment the
caller-supplied callback is invoked, and when the wipe fails the failure
propagates and the callback is never invoked. -/
theorem doSetKit_contract (fs : FS) (d : DriverState) (need_clean : Bool) :
    (doSetKit fs d need_clean).state.needsReconfigure = true
    ∧ (∀ t a, Event.exec t a ∉ (doSetKit fs d need_clean).trace)
    ∧ (need_clean = true → (doSetKit fs d need_clean).error = false →
        (doSetKit fs d need_clean).fs.existsPath d.binaryDir = false
          ∧ (doSetKit fs d need_clean).trace = [Event.kitCallback])
    ∧ (∀ e, need_clean = true → fs.rmdir d.binaryDir = Except.error e →
        (doSetKit fs d need_clean).error = true
          ∧ (doSetKit fs d need_clean).trace = []) := by
  cases need_clean with
  | false =>
    refine ⟨rfl, ?_, ?_, ?_⟩
    · intro t a hmem
      simp [doSetKit] at hmem
    · intro h
      cases h
    · intro e h
      cases h
  | true =>
    cases hrm : fs.rmdir d.binaryDir with
    | error e2 =>
      refine ⟨?_, ?_, ?_, ?_⟩
      · simp [doSetKit, hrm]
      · intro t a hmem
        simp [doSetKit, hrm] at hmem
      · intro _ herr
        simp [doSetKit, hrm] at herr
      · intro e _ _
        constructor <;> simp [doSetKit, hrm]
    | ok fs2 =>
      refine ⟨?_, ?_, ?_, ?_⟩
      · simp [doSetKit, hrm]
      · intro t a hmem
        simp [doSetKit, hrm] at hmem
      · intro _ _
        constructor
        · have hfs : (doSetKit fs d true).fs = fs2 := by
            simp [doSetKit, hrm]
          rw [hfs]
          exact rmdir_ok_not_exists fs d.binaryDir fs2 hrm
        · simp [doSetKit, hrm]
      · intro e _ h
        cases h

/-- Witness for C4: wiping the sample file system succeeds, the binary
directory is gone when the callback runs, and the flag is re-armed. -/
theorem doSetKit_contract_witness :
    (doSetKit sampleFS sampleDriver true).state.needsReconfigure = true
    ∧ (doSetKit sampleFS sampleDriver true).fs.existsPath sampleDriver.binaryDir = false
    ∧ (doSetKit sampleFS sampleDriver true).trace = [Event.kitCallback] := by
  have h := doSetKit_contract sampleFS sampleDriver true
  have h3 := h.2.2.1 rfl (by rfl)
  exact ⟨h.1, h3.1, h3.2⟩

/-- C5: when `cleanConfigure`'s deletion phase succeeds, the cache file and
the `CMakeFiles` directory are both absent from the file system on which the
subsequent configure starts, and that configure runs with no extra
arguments; when a deletion fails, the error propagates and the configure is
never reached.  (The hypothesis says no directory bears the cache file's
path — on a real file system the cache path is a file.) -/
theorem cleanConfigure_contract (fs : FS) (res : ProcessResult) (cmakePath : String)
    (d : DriverState)
    (hnd : fs.dirs.any (fun q => q = d.cachePath) = false) :
    (∀ fs2, cleanConfigureDeletions fs d = Except.ok fs2 →
        fs2.existsPath d.cachePath = false
        ∧ fs2.existsPath d.cmakeFilesPath = false
        ∧ cleanConfigure fs res cmakePath d
            = Except.ok (fs2, doConfigure fs2 res cmakePath d []))
    ∧ (∀ e, cleanConfigureDeletions fs d = Except.error e →
        cleanConfigure fs res cmakePath d = Except.error e) := by
  constructor
  · intro fs2 h
    obtain ⟨fs1, hs1, hs2⟩ := (cleanConfigureDeletions_ok_iff fs d fs2).mp h
    have hc1 : fs1.existsPath d.cachePath = false := deleteCacheStep_ok fs fs1 d hnd hs1
    have hc2 : fs2.existsPath d.cachePath = false :=
      deleteCMakeFilesStep_preserves fs1 fs2 d d.cachePath hs2 hc1
    have hm : fs2.existsPath d.cmakeFilesPath = false :=
      deleteCMakeFilesStep_ok fs1 fs2 d hs2
    refine ⟨hc2, hm, ?_⟩
    unfold cleanConfigure
    rw [h]
  · intro e h
    unfold cleanConfigure
    rw [h]

/-- The sample file system after `cleanConfigure`'s deletions. -/
def cleanedFS : FS := { files := [], dirs := ["bld"], undeletable := [] }

/-- Witness for C5: on the sample file system both deletions succeed and the
configure starts on a file system without the cache file or `CMakeFiles`. -/
theorem cleanConfigure_contract_witness :
    cleanedFS.existsPath sampleDriver.cachePath = false
    ∧ cleanedFS.existsPath sampleDriver.cmakeFilesPath = false
    ∧ cleanConfigure sampleFS exitZero "cmake" sampleDriver
        = Except.ok (cleanedFS, doConfigure cleanedFS exitZero "cmake" sampleDriver []) :=
  (cleanConfigure_contract sampleFS exitZero "cmake" sampleDriver (by rfl)).1
    cleanedFS (by rfl)
